import Mathlib

/-!
Verification development for the targeting-AI draft pipeline.

The development shallowly embeds the two engine modules of the repository:

* `targeting_engine.py` — `TargetingEngine.process_segmentation`,
  `TargetingEngine._parse_target_count`, `TargetingEngine._generate_ai_segments`;
* `feature_engine.py` — `FeatureSearchEngine._initialize_features`,
  `FeatureSearchEngine.search_and_reason`, `FeatureSearchEngine._generate_reasoning`.

External collaborators (the generative text service and the FAISS similarity
index) are modelled as explicit inputs: the generative call's outcome is a
`GenResult` value, and the index query's result is a list of
(document, distance) pairs.  Python exceptions crossing a function boundary
are modelled with `Except`; machine-level numeric types are modelled with
`ℕ`, `ℤ` and `ℚ` (binary floating-point artifacts are outside the model).
-/

namespace TargetingAI

/-! ## Target-count parsing (`TargetingEngine._parse_target_count`)

Python source:
```
clean_str = count_str.replace(",", "").replace("명", "").strip()
if "만" in clean_str:
    return int(float(clean_str.replace("만", "")) * 10000)
return int(clean_str)
# on any exception: return 900000
```
The three replaced patterns are single characters, so `replace` is a filter
on the character list.  `int(...)` / `float(...)` are modelled on the decimal
forms (optional sign, digits, optional single decimal point); exotic forms
Python would also accept (exponents, `inf`/`nan`, underscore separators)
are immaterial to the claims and fall to the 900000 fallback here. -/

/-- Value of a nonempty all-digit character list, most significant first. -/
def digitsToNat (l : List Char) : ℕ :=
  l.foldl (fun a c => a * 10 + (c.toNat - 48)) 0

/-- Check that a character list is a nonempty run of decimal digits. -/
def isDigits (l : List Char) : Bool :=
  !l.isEmpty && l.all Char.isDigit

/-- Model of Python `int(str)`: optional sign followed by digits. -/
def parsePyInt (l : List Char) : Option ℤ :=
  match l with
  | [] => none
  | c :: r =>
    if c = '-' then (if isDigits r then some (-(digitsToNat r : ℤ)) else none)
    else if c = '+' then (if isDigits r then some ((digitsToNat r : ℤ)) else none)
    else (if isDigits l then some ((digitsToNat l : ℤ)) else none)

/-- Sign split of a decimal literal: a leading `-`/`+` is consumed. -/
def signSplit (l : List Char) : Bool × List Char :=
  match l with
  | [] => (false, [])
  | c :: r => if c = '-' then (true, r) else if c = '+' then (false, r) else (false, l)

/-- Model of Python `float(str)` restricted to plain decimal notation:
optional sign, integer digits, optional fraction after a single point.
Returns (negative?, integer part, fraction digits value, fraction length). -/
def parseDecimal (l : List Char) : Option (Bool × ℕ × ℕ × ℕ) :=
  match (signSplit l).2.splitOn '.' with
  | [a] => if isDigits a then some ((signSplit l).1, digitsToNat a, 0, 0) else none
  | [a, b] =>
      if a.all Char.isDigit && b.all Char.isDigit && (!a.isEmpty || !b.isEmpty) then
        some ((signSplit l).1, digitsToNat a, digitsToNat b, b.length)
      else none
  | _ => none

/-- Value of `int(f * 10000)` for a parsed decimal `f`: the product is the
exact rational `±(I·10^e + F)·10000 / 10^e`, and Python `int` truncates
toward zero, which on the nonnegative magnitude is `ℕ` floor division. -/
def decimalTimes10000 (p : Bool × ℕ × ℕ × ℕ) : ℤ :=
  let magnitude : ℕ := (p.2.1 * 10 ^ p.2.2.2 + p.2.2.1) * 10000 / 10 ^ p.2.2.2
  if p.1 then -(magnitude : ℤ) else (magnitude : ℤ)

/-- Model of Python `str.strip()`: drop whitespace from both ends. -/
def trimChars (l : List Char) : List Char :=
  ((l.dropWhile Char.isWhitespace).reverse.dropWhile Char.isWhitespace).reverse

/-- The cleaned character list
`count_str.replace(",", "").replace("명", "").strip()`. -/
def cleanedCount (countStr : String) : List Char :=
  trimChars ((countStr.data.filter (fun c => c ≠ ',')).filter (fun c => c ≠ '명'))

/-- Model of `TargetingEngine._parse_target_count`.  Total: the bare
`except:` of the source means every parse failure yields 900000, never an
exception. -/
def parseTargetCount (countStr : String) : ℤ :=
  if '만' ∈ cleanedCount countStr then
    match parseDecimal ((cleanedCount countStr).filter (fun c => c ≠ '만')) with
    | some p => decimalTimes10000 p
    | none => 900000
  else
    match parsePyInt (cleanedCount countStr) with
    | some n => n
    | none => 900000

/-! ## Segment generation (`TargetingEngine._generate_ai_segments`)

The generative chain inside the `try:` block is an external call; its
observable outcome is either an exception (call failure, timeout, non-JSON
or non-dict output — all land in the `except:` branch) or a parsed JSON
object.  On a parsed object the source reads `ai_data.get("segments", [])`
(a missing key silently yields `[]`) and later `seg["name"]` /
`seg["traits"]` (a missing key raises `KeyError` *outside* the `try:`). -/

/-- One entry of the parsed `"segments"` array; either key may be absent. -/
structure RawSeg where
  name : Option String
  traits : Option String
deriving DecidableEq

/-- Outcome of the generative-service round trip as seen after the
`try/except`: `fail` covers every exception path (call failure, timeout,
unparseable or non-dict output); `ok f` is a parsed JSON object, where
`f = none` models an object without the `"segments"` key. -/
inductive GenResult where
  | fail : GenResult
  | ok : Option (List RawSeg) → GenResult
deriving DecidableEq

/-- Python exceptions that can escape `_generate_ai_segments` itself. -/
inductive EngineError where
  | divByZero : EngineError
  | keyError : EngineError
deriving DecidableEq

/-- One row of the segmentation result.  The source stores the volume as the
formatted string `f"{avg_volume:,}명"` and the date as `"%Y-%m-%d"`; the
model records the underlying integer volume and the date as a day number
(dates a whole number of days apart format monotonically). -/
structure SegOut where
  segNo : ℕ
  segName : String
  segTraits : String
  volume : ℤ
  sendDate : ℤ
deriving DecidableEq

/-- Fallback list built in the `except:` branch:
`[{"name": f"핵심 타겟 그룹 {i+1}", "traits": f"{product}에 반응도가 높은 핵심 타겟층"}
  for i in range(num_segments)]`. -/
def fallbackSegments (product : String) (n : ℕ) : List RawSeg :=
  (List.range n).map fun i =>
    { name := some ("핵심 타겟 그룹 " ++ toString (i + 1))
    , traits := some (product ++ "에 반응도가 높은 핵심 타겟층") }

/-- Raw segment list after the `try/except`: the fallback on failure,
`ai_data.get("segments", [])` on success. -/
def rawSegmentsOf (product : String) (numSegments : ℕ) : GenResult → List RawSeg
  | .fail => fallbackSegments product numSegments
  | .ok f => f.getD []

/-- One iteration of the result loop.  Evaluation order of the source:
`send_date` needs `i % frequency` (ZeroDivisionError when `frequency == 0`),
then the dict literal reads `seg["name"]` and `seg["traits"]` (KeyError when
absent).  `day_gap = 3 if frequency > 1 else 0`. -/
def mkRow (frequency : ℕ) (avgVolume baseDate : ℤ) (i : ℕ) (seg : RawSeg) :
    Except EngineError SegOut :=
  if frequency = 0 then .error .divByZero
  else
    match seg.name, seg.traits with
    | some n, some t =>
        .ok { segNo := i + 1
            , segName := n
            , segTraits := t
            , volume := avgVolume
            , sendDate := baseDate + ((i % frequency : ℕ) : ℤ) * (if 1 < frequency then 3 else 0) }
    | _, _ => .error .keyError

/-- The result loop `for i, seg in enumerate(segments_raw[:num_segments])`,
threading the running index. -/
def buildRows (frequency : ℕ) (avgVolume baseDate : ℤ) : ℕ → List RawSeg →
    Except EngineError (List SegOut)
  | _, [] => .ok []
  | i, s :: rest =>
    match mkRow frequency avgVolume baseDate i s with
    | .error e => .error e
    | .ok row =>
      match buildRows frequency avgVolume baseDate (i + 1) rest with
      | .error e => .error e
      | .ok rows => .ok (row :: rows)

/-- Model of `TargetingEngine._generate_ai_segments`.  The prompt text and
the feature context only steer the external call and do not affect the
mapping from its outcome to the returned rows, so they are not part of the
model.  `avg_volume = total_count // num_segments` is Python floor division
(`Int.fdiv`) and raises ZeroDivisionError when `num_segments == 0`;
`base_date = datetime.now() + timedelta(days=7)`. -/
def generateAISegments (product : String) (frequency numSegments : ℕ) (totalCount : ℤ)
    (gen : GenResult) (now : ℤ) : Except EngineError (List SegOut) :=
  let segmentsRaw := rawSegmentsOf product numSegments gen
  if numSegments = 0 then .error .divByZero
  else
    buildRows frequency (Int.fdiv totalCount numSegments) (now + 7) 0
      (segmentsRaw.take numSegments)

/-- Segment-count rule of `process_segmentation` step 2:
`num_segments = 5 if frequency == 1 else frequency`. -/
def numSegmentsOf (frequency : ℕ) : ℕ :=
  if frequency = 1 then 5 else frequency

/-- Model of `TargetingEngine.process_segmentation`: parse the target count,
apply the `num_segments` rule, then the generation step.
`selected_features` only feeds the prompt and is dropped from the model for
the same reason as the prompt text. -/
def processSegmentation (targetCount : String) (frequency : ℕ) (product : String)
    (gen : GenResult) (now : ℤ) : Except EngineError (List SegOut) :=
  let totalTarget := parseTargetCount targetCount
  let numSegments := numSegmentsOf frequency
  generateAISegments product frequency numSegments totalTarget gen now

/-- Error projection of an `Except` result (used to state which Python
exception escapes). -/
def errorOf {ε α : Type} : Except ε α → Option ε
  | .error e => some e
  | .ok _ => none

/-! ## Feature catalog (`FeatureSearchEngine._initialize_features`)

The catalog is the cross product of the 15 fixed feature definitions and the
5 fixed audience segment tags, in source order.  The four `random.*` draws
per pairing are modelled by an explicit draw source indexed by the pairing's
position in iteration order; the identity fields (id, name, category,
evidence) do not depend on it. -/

/-- One entry of `feature_definitions`. -/
structure FeatureDef where
  cat : String
  name : String
  unit : String
  timeUnit : String
  evidence : String

/-- The fixed `feature_definitions` list of the source, in order. -/
def featureDefinitions : List FeatureDef :=
  [ ⟨"Psychographic (심리/라이프스타일)", "얼리어답터 지수", "회", "분", "GeekNews/Bloter IT 뉴스 구독"⟩
  , ⟨"Psychographic (심리/라이프스타일)", "해외 트렌드 민감도", "회", "분", "Reddit/Twitch 해외 커뮤니티 접속"⟩
  , ⟨"Psychographic (심리/라이프스타일)", "가치 소비 성향", "건", "분", "와디즈/텀블벅 펀딩 참여"⟩
  , ⟨"Psychographic (심리/라이프스타일)", "삼성 브랜드 선호도", "회", "회", "삼성닷컴/삼성멤버스 활동 이력"⟩
  , ⟨"Psychographic (심리/라이프스타일)", "애플 브랜드 충성도", "회", "회", "애플스토어/Apple 전용 서비스 결제"⟩
  , ⟨"Behavioral - Purchase (소비 행동)", "식의주 고관여 소비", "건", "분", "마켓컬리 샛별배송 및 무신사 구매"⟩
  , ⟨"Behavioral - Purchase (소비 행동)", "커피 하이엔드 취향", "회", "회", "스타벅스 리저브/블루보틀 결제"⟩
  , ⟨"Behavioral - Purchase (소비 행동)", "배달 서비스 의존도", "회", "분", "배달의민족/쿠팡이츠 고빈도 주문"⟩
  , ⟨"Behavioral - Digital (디지털 행동)", "커뮤니티 헤비 유저", "회", "분/일", "에펨코리아/클리앙 체류"⟩
  , ⟨"Behavioral - Digital (디지털 행동)", "중고거래 액티브 레이팅", "건", "회", "당근마켓 매너온도 및 거래"⟩
  , ⟨"Behavioral - Digital (디지털 행동)", "숏폼 콘텐츠 소비력", "회", "분/일", "틱톡/유튜브 쇼츠 시청"⟩
  , ⟨"Finance & Risk (금융/리스크)", "자산 성숙도", "회 접속", "분", "토스/카카오뱅크 자산 연동"⟩
  , ⟨"Finance & Risk (금융/리스크)", "투자 공격성", "회 거래", "분", "키움증권/미래에셋증권 등 주요 증권사 사이트 접속"⟩
  , ⟨"Customer Journey (고객 여정)", "이탈 조짐 고위험군", "회", "일", "최근 한 달간 앱 미접속"⟩
  , ⟨"Customer Journey (고객 여정)", "브랜드 옹호자(NPS)", "회", "분", "자발적 상품 후기 작성"⟩ ]

/-- The fixed `segments` tag list of the source, in order. -/
def segmentTags : List String :=
  ["서울권", "MZ세대", "직장인", "고소득층", "트렌드세터"]

/-- The values drawn for one (feature, tag) pairing:
`random.randint(10, 150)`, `random.randint(20, 300)`, `random.randint(1, 14)`
and two `random.choice(["증가", "유지", "감소"])`. -/
structure SignalDraw where
  countVal : ℕ
  timeVal : ℕ
  recencyVal : ℕ
  trendW : String
  trendM : String

/-- The catalog's addressable unit: the metadata the source attaches to each
FAISS `Document` (the embedded `page_content` only feeds the opaque index
and is reproduced in `content`). -/
structure FeatureDoc where
  id : ℕ
  name : String
  category : String
  evidence : String
  countStr : String
  timeStr : String
  recencyStr : String
  trendW : String
  trendM : String
  content : String
deriving DecidableEq

/-- One catalog document, mirroring the loop body of
`_initialize_features`: the id is
`i * len(segments) + segments.index(seg) + 1` (note the trailing `+ 1`). -/
def mkDoc (i : ℕ) (feat : FeatureDef) (seg : String) (d : SignalDraw) : FeatureDoc :=
  let featName := feat.name ++ " (" ++ seg ++ ")"
  { id := i * segmentTags.length + segmentTags.indexOf seg + 1
  , name := featName
  , category := feat.cat
  , evidence := feat.evidence
  , countStr := toString d.countVal ++ feat.unit
  , timeStr := toString d.timeVal ++ feat.timeUnit
  , recencyStr := toString d.recencyVal ++ "일 전"
  , trendW := d.trendW
  , trendM := d.trendM
  , content := "피처명: " ++ featName ++ ", 카테고리: " ++ feat.cat ++ ", 설명: "
      ++ feat.cat ++ " 분야의 " ++ feat.name ++ " 지표입니다." }

/-- Model of `_initialize_features`: nested loops over the fixed definition
and tag lists; `draw k` supplies the random values consumed by the `k`-th
pairing in iteration order (`k = i * len(segments) + position of seg`). -/
def buildCatalog (draw : ℕ → SignalDraw) : List FeatureDoc :=
  featureDefinitions.enum.flatMap fun p =>
    segmentTags.map fun seg =>
      mkDoc p.1 p.2 seg (draw (p.1 * segmentTags.length + segmentTags.indexOf seg))

/-- The identity-relevant projection of a catalog document (everything but
the simulated quantitative signal snapshot). -/
def identityView (doc : FeatureDoc) : ℕ × String × String × String :=
  (doc.id, doc.name, doc.category, doc.evidence)

/-! ## Retrieval and justification (`FeatureSearchEngine.search_and_reason`)

The FAISS call `similarity_search_with_score(query, k=k)` is an external
query against the opaque index; its result is taken as an input list of
(document, L2 distance) pairs.  Per §4.2 distances are nonnegative. -/

/-- One row of the retrieval result (`번호`, `피처명`, `카테고리`, `유사도`, `사유`). -/
structure RankedResult where
  id : ℕ
  name : String
  category : String
  similarity : ℚ
  reason : String
deriving DecidableEq

/-- Model of `_generate_reasoning`: local text assembly from the stored
metadata.  The source reads the fields with `.get(key, default)` but every
catalog document carries all keys, so the direct fields are used. -/
def generateReasoning (doc : FeatureDoc) : String :=
  "📍 **주요 행동 발생처**: `" ++ doc.evidence ++ "`  \n"
    ++ "📊 **정량 지표**: 발생 " ++ doc.countStr ++ " / 이용시간 " ++ doc.timeStr
    ++ " / **최근 " ++ doc.recencyStr ++ " 발생**  \n"
    ++ "📈 **추세 분석**: 최근 1주일 " ++ doc.trendW ++ " / 최근 1달 " ++ doc.trendM ++ " 추세"

/-- Round half to even at integer precision, the rounding mode of Python's
built-in `round` (on the exact-value model of the float argument). -/
def rndHalfEven (x : ℚ) : ℤ :=
  if x - ⌊x⌋ < 1/2 then ⌊x⌋
  else if 1/2 < x - ⌊x⌋ then ⌊x⌋ + 1
  else if ⌊x⌋ % 2 = 0 then ⌊x⌋ else ⌊x⌋ + 1

/-- Model of Python `round(x, 4)`. -/
def round4 (x : ℚ) : ℚ :=
  (rndHalfEven (x * 10000) : ℚ) / 10000

/-- The distance-to-similarity map before rounding: `1 / (1 + score)`. -/
def unroundedSimilarity (d : ℚ) : ℚ :=
  1 / (1 + d)

/-- The similarity the source computes: `round(1.0 / (1.0 + score), 4)`. -/
def similarityOfDistance (d : ℚ) : ℚ :=
  round4 (unroundedSimilarity d)

/-- One retrieval row before sorting. -/
def mkRanked (p : FeatureDoc × ℚ) : RankedResult :=
  { id := p.1.id
  , name := p.1.name
  , category := p.1.category
  , similarity := similarityOfDistance p.2
  , reason := generateReasoning p.1 }

/-- The ordering used by `results.sort(key=lambda x: x["유사도"], reverse=True)`:
`a` may precede `b` iff `a`'s similarity is at least `b`'s. -/
def simGE (a b : RankedResult) : Prop :=
  b.similarity ≤ a.similarity

instance : DecidableRel simGE :=
  fun a b => inferInstanceAs (Decidable (b.similarity ≤ a.similarity))

instance : IsTotal RankedResult simGE :=
  ⟨fun a b => le_total b.similarity a.similarity⟩

instance : IsTrans RankedResult simGE :=
  ⟨fun _ _ _ h1 h2 => le_trans h2 h1⟩

/-- Model of `search_and_reason` downstream of the index query: map each
(document, distance) pair to a ranked row, then sort by similarity
descending.  Python's `list.sort` is stable, and any stable sort under the
same key yields the same list, so it is modelled by stable insertion sort;
sortedness, permutation and stability are proved below. -/
def searchAndReason (docsWithScores : List (FeatureDoc × ℚ)) : List RankedResult :=
  List.insertionSort simGE (docsWithScores.map mkRanked)

/-- The query string `f"상품: {product}, 마케팅 성공 지표: {metric}"`. -/
def queryText (product metric : String) : String :=
  "상품: " ++ product ++ ", 마케팅 성공 지표: " ++ metric

/-- The opaque index: a query capability from (text, k) to scored documents. -/
def VectorStore : Type :=
  String → ℕ → List (FeatureDoc × ℚ)

/-- Failure of the retrieval path when the index was never built
(`self.vector_store` still `None`): the spec's `IndexNotReadyError`,
realised in the source as the attribute error raised by
`None.similarity_search_with_score`. -/
inductive RetrievalError where
  | indexNotReady : RetrievalError
deriving DecidableEq

/-- The retrieval entry point including the engine state: `vector_store` is
`None` until `_initialize_features` succeeds, and `search_and_reason`
dereferences it unconditionally. -/
def searchAndReasonE (store : Option VectorStore) (product metric : String) (k : ℕ) :
    Except RetrievalError (List RankedResult) :=
  match store with
  | none => .error .indexNotReady
  | some vs => .ok (searchAndReason (vs (queryText product metric) k))

/-- Closed form of the row the fallback path produces at ordinal `i`. -/
def fallbackRow (product : String) (freq : ℕ) (avg base : ℤ) (i : ℕ) : SegOut :=
  { segNo := i + 1
  , segName := "핵심 타겟 그룹 " ++ toString (i + 1)
  , segTraits := product ++ "에 반응도가 높은 핵심 타겟층"
  , volume := avg
  , sendDate := base + ((i % freq : ℕ) : ℤ) * (if 1 < freq then 3 else 0) }

/-- An arbitrary fixed draw source, for concrete catalog instances. -/
def drawZero : ℕ → SignalDraw :=
  fun _ => ⟨10, 20, 1, "유지", "유지"⟩

/-- An arbitrary fixed catalog document, for concrete retrieval instances. -/
def someDoc : FeatureDoc :=
  ⟨1, "얼리어답터 지수 (서울권)", "Psychographic (심리/라이프스타일)",
   "GeekNews/Bloter IT 뉴스 구독", "10회", "20분", "1일 전", "유지", "유지", "x"⟩

/-! ## Lemmas about the segmentation generator -/

lemma numSegmentsOf_ne_zero {freq : ℕ} (hf : freq ≠ 0) : numSegmentsOf freq ≠ 0 := by
  unfold numSegmentsOf; split <;> omega

lemma buildRows_spec (freq : ℕ) (hf : freq ≠ 0) (avg base : ℤ) :
    ∀ (l : List RawSeg) (i0 : ℕ), (∀ r ∈ l, r.name.isSome ∧ r.traits.isSome) →
      ∃ segs, buildRows freq avg base i0 l = .ok segs ∧ segs.length = l.length
        ∧ ∀ s ∈ segs, s.volume = avg := by
  intro l
  induction l with
  | nil => exact fun i0 _ => ⟨[], rfl, rfl, by simp⟩
  | cons s rest ih =>
    intro i0 hwf
    obtain ⟨hn, ht⟩ := hwf s (by simp)
    obtain ⟨n, hn'⟩ := Option.isSome_iff_exists.mp hn
    obtain ⟨t, ht'⟩ := Option.isSome_iff_exists.mp ht
    obtain ⟨segs, hrec, hlen, hvol⟩ := ih (i0 + 1) (fun r hr => hwf r (by simp [hr]))
    refine ⟨{ segNo := i0 + 1, segName := n, segTraits := t, volume := avg,
              sendDate := base + ((i0 % freq : ℕ) : ℤ) * (if 1 < freq then 3 else 0) } :: segs,
            ?_, ?_, ?_⟩
    · simp [buildRows, mkRow, hf, hn', ht', hrec]
    · simp [hlen]
    · intro x hx
      rcases List.mem_cons.mp hx with h | h
      · subst h; rfl
      · exact hvol x h

lemma buildRows_fallback (product : String) (freq : ℕ) (hf : freq ≠ 0) (avg base : ℤ) :
    ∀ (n i0 : ℕ),
      buildRows freq avg base i0 ((List.range' i0 n).map fun i =>
        ({ name := some ("핵심 타겟 그룹 " ++ toString (i + 1))
         , traits := some (product ++ "에 반응도가 높은 핵심 타겟층") } : RawSeg))
      = .ok ((List.range' i0 n).map (fallbackRow product freq avg base)) := by
  intro n
  induction n with
  | zero => intro i0; rfl
  | succ m ih =>
    intro i0
    rw [List.range'_succ]
    simp only [List.map_cons]
    simp [buildRows, mkRow, hf, ih (i0 + 1), fallbackRow]

lemma processSegmentation_fail (tc product : String) (freq : ℕ) (hf : freq ≠ 0) (now : ℤ) :
    processSegmentation tc freq product .fail now
      = .ok ((List.range (numSegmentsOf freq)).map
          (fallbackRow product freq (Int.fdiv (parseTargetCount tc) (numSegmentsOf freq)) (now + 7))) := by
  have hN := numSegmentsOf_ne_zero hf
  unfold processSegmentation generateAISegments rawSegmentsOf
  rw [if_neg hN]
  have hlen : (fallbackSegments product (numSegmentsOf freq)).length = numSegmentsOf freq := by
    simp [fallbackSegments]
  have htake := List.take_length (fallbackSegments product (numSegmentsOf freq))
  rw [hlen] at htake
  rw [htake]
  unfold fallbackSegments
  rw [List.range_eq_range']
  exact buildRows_fallback product freq hf _ _ _ 0

lemma processSegmentation_ok_raw (tc product : String) (freq : ℕ) (hf : freq ≠ 0)
    (raw : List RawSeg) (hwf : ∀ r ∈ raw, r.name.isSome ∧ r.traits.isSome) (now : ℤ) :
    ∃ segs, processSegmentation tc freq product (.ok (some raw)) now = .ok segs
      ∧ segs.length = min raw.length (numSegmentsOf freq)
      ∧ ∀ s ∈ segs, s.volume = Int.fdiv (parseTargetCount tc) (numSegmentsOf freq) := by
  have hN := numSegmentsOf_ne_zero hf
  obtain ⟨segs, h1, h2, h3⟩ := buildRows_spec freq hf
      (Int.fdiv (parseTargetCount tc) (numSegmentsOf freq)) (now + 7)
      (raw.take (numSegmentsOf freq)) 0
      (fun r hr => hwf r (List.mem_of_mem_take hr))
  refine ⟨segs, ?_, ?_, h3⟩
  · unfold processSegmentation generateAISegments rawSegmentsOf
    rw [if_neg hN]
    simpa using h1
  · rw [h2, List.length_take, Nat.min_comm]

lemma mkRow_error_keyError {freq : ℕ} {avg base : ℤ} {i : ℕ} {s : RawSeg} {e : EngineError}
    (hf : freq ≠ 0) (h : mkRow freq avg base i s = .error e) : e = .keyError := by
  unfold mkRow at h
  rw [if_neg hf] at h
  cases hn : s.name <;> cases ht : s.traits <;> rw [hn, ht] at h <;> simp_all

lemma buildRows_ne_div (freq : ℕ) (hf : freq ≠ 0) (avg base : ℤ) :
    ∀ (l : List RawSeg) (i0 : ℕ), buildRows freq avg base i0 l ≠ .error .divByZero := by
  intro l
  induction l with
  | nil => intro i0 h; exact absurd h (by simp [buildRows])
  | cons s rest ih =>
    intro i0 h
    simp only [buildRows] at h
    rcases hmk : mkRow freq avg base i0 s with e | row
    · rw [hmk] at h
      have he := mkRow_error_keyError hf hmk
      rw [he] at h
      simp at h
    · rw [hmk] at h
      rcases hrec : buildRows freq avg base (i0 + 1) rest with e | rows
      · rw [hrec] at h
        simp at h
        exact ih (i0 + 1) (by rw [hrec, h])
      · rw [hrec] at h
        simp at h

lemma mem_trimChars {c : Char} {l : List Char} (h : c ∈ trimChars l) : c ∈ l := by
  unfold trimChars at h
  rw [List.mem_reverse] at h
  have h1 := (List.dropWhile_sublist _).subset h
  rw [List.mem_reverse] at h1
  exact (List.dropWhile_sublist _).subset h1

lemma mem_of_mem_cleanedCount {c : Char} {s : String} (h : c ∈ cleanedCount s) : c ∈ s.data := by
  unfold cleanedCount at h
  have h1 := mem_trimChars h
  exact (List.mem_filter.mp (List.mem_filter.mp h1).1).1

lemma parsePyInt_nonneg {l : List Char} {n : ℤ} (hm : '-' ∉ l) (hp : parsePyInt l = some n) :
    0 ≤ n := by
  cases l with
  | nil => exact absurd hp (by simp [parsePyInt])
  | cons c r =>
    by_cases hc : c = '-'
    · exact absurd (List.mem_cons.mpr (Or.inl hc.symm)) hm
    · simp only [parsePyInt] at hp
      rw [if_neg hc] at hp
      by_cases hc' : c = '+'
      · rw [if_pos hc'] at hp
        split_ifs at hp with hd
        injection hp with h
        rw [← h]
        exact Int.natCast_nonneg _
      · rw [if_neg hc'] at hp
        split_ifs at hp with hd
        injection hp with h
        rw [← h]
        exact Int.natCast_nonneg _

lemma signSplit_fst_false {l : List Char} (hm : '-' ∉ l) : (signSplit l).1 = false := by
  cases l with
  | nil => rfl
  | cons c r =>
    by_cases hc : c = '-'
    · exact absurd (List.mem_cons.mpr (Or.inl hc.symm)) hm
    · simp only [signSplit]
      rw [if_neg hc]
      by_cases hc' : c = '+'
      · rw [if_pos hc']
      · rw [if_neg hc']

lemma parseDecimal_sign_eq {l : List Char} {p : Bool × ℕ × ℕ × ℕ}
    (hp : parseDecimal l = some p) : p.1 = (signSplit l).1 := by
  unfold parseDecimal at hp
  split at hp
  · split_ifs at hp
    injection hp with h
    rw [← h]
  · split_ifs at hp
    injection hp with h
    rw [← h]
  · exact absurd hp (by simp)

lemma parseTargetCount_nonneg (s : String) (hm : '-' ∉ s.data) : 0 ≤ parseTargetCount s := by
  have hmc : '-' ∉ cleanedCount s := fun h => hm (mem_of_mem_cleanedCount h)
  unfold parseTargetCount
  split
  · rcases hd : parseDecimal ((cleanedCount s).filter (fun c => c ≠ '만')) with _ | p
    · norm_num
    · have hmf : '-' ∉ (cleanedCount s).filter (fun c => c ≠ '만') :=
        fun hc => hmc (List.mem_filter.mp hc).1
      have hfalse : p.1 = false := by
        rw [parseDecimal_sign_eq hd]
        exact signSplit_fst_false hmf
      obtain ⟨b, q⟩ := p
      cases b
      · exact Int.natCast_nonneg _
      · simp at hfalse
  · rcases hi : parsePyInt (cleanedCount s) with _ | n
    · norm_num
    · exact parsePyInt_nonneg hmc hi

lemma sum_volumes_const (avg : ℤ) :
    ∀ (segs : List SegOut), (∀ s ∈ segs, s.volume = avg) →
      (segs.map (·.volume)).sum = avg * segs.length := by
  intro segs
  induction segs with
  | nil => simp
  | cons s rest ih =>
    intro h
    have hs := h s (by simp)
    have hr := ih (fun x hx => h x (by simp [hx]))
    simp only [List.map_cons, List.sum_cons, hs, hr, List.length_cons]
    push_cast
    ring

/-! ## Lemmas about rounding and the similarity map -/

lemma floor_le_rndHalfEven (x : ℚ) : ⌊x⌋ ≤ rndHalfEven x := by
  unfold rndHalfEven
  split_ifs <;> omega

lemma rndHalfEven_le_floor_add_one (x : ℚ) : rndHalfEven x ≤ ⌊x⌋ + 1 := by
  unfold rndHalfEven
  split_ifs <;> omega

lemma rndHalfEven_mono {x y : ℚ} (h : x ≤ y) : rndHalfEven x ≤ rndHalfEven y := by
  have hf : ⌊x⌋ ≤ ⌊y⌋ := Int.floor_le_floor h
  rcases lt_or_eq_of_le hf with hlt | heq
  · calc rndHalfEven x ≤ ⌊x⌋ + 1 := rndHalfEven_le_floor_add_one x
      _ ≤ ⌊y⌋ := by omega
      _ ≤ rndHalfEven y := floor_le_rndHalfEven y
  · have hxf : (⌊x⌋ : ℚ) ≤ x := Int.floor_le x
    have hyf : (⌊y⌋ : ℚ) ≤ y := Int.floor_le y
    unfold rndHalfEven
    rw [← heq]
    have hsub : x - (⌊x⌋ : ℚ) ≤ y - (⌊x⌋ : ℚ) := by linarith
    split_ifs <;> first | omega | linarith

lemma round4_mono {x y : ℚ} (h : x ≤ y) : round4 x ≤ round4 y := by
  unfold round4
  rw [div_le_div_iff_of_pos_right (by norm_num : (0:ℚ) < 10000)]
  exact_mod_cast rndHalfEven_mono (by nlinarith : x * 10000 ≤ y * 10000)

lemma round4_zero : round4 0 = 0 := by
  have h0 : ((0:ℚ) * 10000) = 0 := by norm_num
  unfold round4 rndHalfEven
  rw [h0]
  norm_num

lemma round4_one : round4 1 = 1 := by
  have h1 : ((1:ℚ) * 10000) = ((10000:ℤ) : ℚ) := by norm_num
  unfold round4 rndHalfEven
  rw [h1, Int.floor_intCast]
  norm_num

lemma round4_nonneg {x : ℚ} (hx : 0 ≤ x) : 0 ≤ round4 x := by
  rw [← round4_zero]
  exact round4_mono hx

lemma round4_le_one {x : ℚ} (hx : x ≤ 1) : round4 x ≤ 1 := by
  rw [← round4_one]
  exact round4_mono hx

lemma unroundedSimilarity_pos {d : ℚ} (hd : 0 ≤ d) : 0 < unroundedSimilarity d :=
  one_div_pos.mpr (by linarith)

lemma unroundedSimilarity_le_one {d : ℚ} (hd : 0 ≤ d) : unroundedSimilarity d ≤ 1 := by
  unfold unroundedSimilarity
  rw [div_le_one (by linarith)]
  linarith

lemma unroundedSimilarity_zero : unroundedSimilarity 0 = 1 := by
  norm_num [unroundedSimilarity]

lemma unroundedSimilarity_strictAnti {d e : ℚ} (hd : 0 ≤ d) (h : d < e) :
    unroundedSimilarity e < unroundedSimilarity d :=
  one_div_lt_one_div_of_lt (by linarith) (by linarith)

lemma similarityOfDistance_zero : similarityOfDistance 0 = 1 := by
  rw [similarityOfDistance, unroundedSimilarity_zero, round4_one]

lemma similarityOfDistance_nonneg {d : ℚ} (hd : 0 ≤ d) : 0 ≤ similarityOfDistance d :=
  round4_nonneg (le_of_lt (unroundedSimilarity_pos hd))

lemma similarityOfDistance_le_one {d : ℚ} (hd : 0 ≤ d) : similarityOfDistance d ≤ 1 :=
  round4_le_one (unroundedSimilarity_le_one hd)

lemma similarityOfDistance_anti {d e : ℚ} (hd : 0 ≤ d) (h : d ≤ e) :
    similarityOfDistance e ≤ similarityOfDistance d := by
  rcases eq_or_lt_of_le h with rfl | hlt
  · exact le_refl _
  · exact round4_mono (le_of_lt (unroundedSimilarity_strictAnti hd hlt))

lemma similarity_at_20000 : similarityOfDistance 20000 = 0 := by
  have h1 : unroundedSimilarity 20000 * 10000 = 10000 / 20001 := by
    unfold unroundedSimilarity
    norm_num
  have h2 : ⌊(10000 : ℚ) / 20001⌋ = 0 := by
    rw [Int.floor_eq_zero_iff]
    constructor <;> norm_num
  unfold similarityOfDistance round4 rndHalfEven
  rw [h1, h2]
  have h3 : (10000 : ℚ) / 20001 - ((0:ℤ) : ℚ) < 1/2 := by norm_num
  rw [if_pos h3]
  norm_num

/-! ## Lemmas about the descending stable sort -/

lemma filter_orderedInsert (q : ℚ) (x : RankedResult) :
    ∀ l : List RankedResult,
      (List.orderedInsert simGE x l).filter (fun r => decide (r.similarity = q))
        = if x.similarity = q
          then x :: l.filter (fun r => decide (r.similarity = q))
          else l.filter (fun r => decide (r.similarity = q)) := by
  intro l
  induction l with
  | nil =>
    by_cases hx : x.similarity = q <;>
      simp [List.orderedInsert, List.filter, hx]
  | cons y ys ih =>
    rw [List.orderedInsert]
    by_cases hxy : simGE x y
    · rw [if_pos hxy]
      by_cases hx : x.similarity = q <;> by_cases hy : y.similarity = q <;>
        simp [List.filter_cons, hx, hy]
    · rw [if_neg hxy]
      have hyx : x.similarity < y.similarity := not_le.mp hxy
      by_cases hx : x.similarity = q
      · have hy : ¬(y.similarity = q) := by
          intro h
          rw [hx, ← h] at hyx
          exact lt_irrefl _ hyx
        simp [List.filter_cons, hx, hy, ih]
      · by_cases hy : y.similarity = q <;>
          simp [List.filter_cons, hx, hy, ih]

lemma filter_insertionSort (q : ℚ) :
    ∀ l : List RankedResult,
      (List.insertionSort simGE l).filter (fun r => decide (r.similarity = q))
        = l.filter (fun r => decide (r.similarity = q)) := by
  intro l
  induction l with
  | nil => rfl
  | cons x xs ih =>
    rw [List.insertionSort, filter_orderedInsert, ih]
    by_cases hx : x.similarity = q <;> simp [List.filter_cons, hx]

lemma append_ne_empty_of_left {a : String} (b : String) (ha : a.length ≠ 0) : a ++ b ≠ "" := by
  intro h
  have hlen := congrArg String.length h
  rw [String.length_append] at hlen
  have h0 : ("" : String).length = 0 := rfl
  omega

lemma append_ne_empty_of_right (a : String) {b : String} (hb : b.length ≠ 0) : a ++ b ≠ "" := by
  intro h
  have hlen := congrArg String.length h
  rw [String.length_append] at hlen
  have h0 : ("" : String).length = 0 := rfl
  omega

/-! ## Claims -/

/-- C7, counterexample: the parser is not non-negative on every input — a
leading minus sign survives `int(...)`, so `_parse_target_count("-5")`
returns `-5 < 0`. -/
theorem c7_counterexample : parseTargetCount "-5" < 0 := by decide

/-- C7 (amended): `_parse_target_count` is a total function (the bare
`except:` turns every parse failure into the silent default 900000, so the
caller always receives a usable integer and never a failure); it satisfies
the three specified vectors; and its result is non-negative for every input
string containing no minus sign.  (On inputs with a leading minus sign the
result can be negative, e.g. `"-5" ↦ -5`, so "non-negative for every input"
does not hold unconditionally.) -/
theorem c7_parse_target_count :
    parseTargetCount "100만명" = 1000000
    ∧ parseTargetCount "50,000" = 50000
    ∧ parseTargetCount "garbage" = 900000
    ∧ ∀ s : String, '-' ∉ s.data → 0 ≤ parseTargetCount s := by
  refine ⟨by decide, by decide, by decide, ?_⟩
  intro s hm
  exact parseTargetCount_nonneg s hm

/-- C7, witness: the universally quantified part of `c7_parse_target_count`
applied at the concrete input `"50,000"`. -/
theorem c7_witness : '-' ∉ "50,000".data ∧ 0 ≤ parseTargetCount "50,000" :=
  ⟨by decide, c7_parse_target_count.2.2.2 "50,000" (by decide)⟩

/-- C8, counterexample: the catalog ids are not
`archetype_index * segment_count + segment_index` — that formula would give
the id sequence `0, 1, …, 74` in build order, but the source adds `+ 1`,
so the built ids are `1, 2, …, 75`. -/
theorem c8_counterexample :
    ¬ ((buildCatalog drawZero).map (·.id) = List.range 75) := by decide

/-- C8 (amended): the catalog build assigns every feature instance the
stable id `archetype_index * segment_count + segment_index + 1` (the ids in
build order are exactly `1, …, 75`), these ids are pairwise distinct, and
rebuilding the catalog with a different random draw yields the same
(id, name, category, evidence) assignment — only the quantitative signal
values may differ. -/
theorem c8_catalog_identity (draw draw' : ℕ → SignalDraw) :
    (buildCatalog draw).map (·.id) = (List.range 75).map (· + 1)
    ∧ ((buildCatalog draw).map (·.id)).Nodup
    ∧ (buildCatalog draw).map identityView = (buildCatalog draw').map identityView := by
  refine ⟨rfl, ?_, rfl⟩
  have h : (buildCatalog draw).map (·.id) = (List.range 75).map (· + 1) := rfl
  rw [h]
  exact (List.nodup_range 75).map (add_left_injective 1)

/-- C9 (confirmed): when the index was never built (`vector_store` is still
`None`), the retrieval call fails with the index-not-ready error, and this
is surfaced to the caller directly (the body contains no retry — the result
is the error itself); when the index exists, retrieval always succeeds, so
index failures are the only fatal failures of the retrieval path. -/
theorem c9_index_not_ready :
    (∀ (product metric : String) (k : ℕ),
        searchAndReasonE none product metric k = .error .indexNotReady)
    ∧ (∀ (vs : VectorStore) (product metric : String) (k : ℕ),
        ∃ rs, searchAndReasonE (some vs) product metric k = .ok rs) :=
  ⟨fun _ _ _ => rfl, fun _ _ _ _ => ⟨_, rfl⟩⟩

/-- C10 (confirmed): with `frequency == 0` the request is neither rejected
nor clamped — the segment count becomes 0 and the unguarded division
`total_count // num_segments` raises ZeroDivisionError, for every target
string, product, generative outcome and date; with `frequency ≥ 1` the
division-by-zero error is unreachable. -/
theorem c10_zero_frequency :
    (∀ (tc product : String) (gen : GenResult) (now : ℤ),
        processSegmentation tc 0 product gen now = .error .divByZero)
    ∧ (∀ (tc product : String) (freq : ℕ) (gen : GenResult) (now : ℤ), 1 ≤ freq →
        processSegmentation tc freq product gen now ≠ .error .divByZero) := by
  constructor
  · intro tc product gen now
    rfl
  · intro tc product freq gen now hfreq h
    have hf : freq ≠ 0 := by omega
    have hN := numSegmentsOf_ne_zero hf
    unfold processSegmentation generateAISegments at h
    rw [if_neg hN] at h
    exact buildRows_ne_div freq hf _ _ _ 0 h

/-- C10, witness: the guarded part of `c10_zero_frequency` applied at
frequency 1 with a concrete request. -/
theorem c10_witness :
    (1:ℕ) ≤ 1 ∧ processSegmentation "100만명" 1 "TestPhone" .fail 0 ≠ .error .divByZero :=
  ⟨by decide, c10_zero_frequency.2 "100만명" "TestPhone" 1 .fail 0 (by decide)⟩

/-- C1, counterexample: the raw segment list is truncated but never padded —
when the service under-produces (1 well-formed segment for N = 4), the
result has 1 segment, not exactly N. -/
theorem c1_counterexample :
    ¬ ((processSegmentation "100만명" 4 "TestPhone"
        (GenResult.ok (some [⟨some "A", some "B"⟩])) 0).toOption.map List.length
      = some 4) := by decide

/-- C1 (amended): with `frequency ≥ 1` and `N = numSegmentsOf frequency`
(5 when frequency = 1, frequency otherwise), `process_segmentation` returns
exactly `N` segments when the generative call fails and exactly
`min(raw length, N)` segments when the call succeeds with well-formed
entries: over-production is truncated to the first `N`, but
under-production is NOT padded, so fewer than `N` segments are returned
when the service under-produces. -/
theorem c1_segment_count (tc product : String) (freq : ℕ) (now : ℤ)
    (raw : List RawSeg) (hfreq : 1 ≤ freq)
    (hwf : ∀ r ∈ raw, r.name.isSome ∧ r.traits.isSome) :
    (∃ segs, processSegmentation tc freq product .fail now = .ok segs
       ∧ segs.length = numSegmentsOf freq)
    ∧ (∃ segs, processSegmentation tc freq product (.ok (some raw)) now = .ok segs
       ∧ segs.length = min raw.length (numSegmentsOf freq)) := by
  have hf : freq ≠ 0 := by omega
  constructor
  · refine ⟨_, processSegmentation_fail tc product freq hf now, ?_⟩
    simp
  · obtain ⟨segs, h1, h2, _⟩ := processSegmentation_ok_raw tc product freq hf raw hwf now
    exact ⟨segs, h1, h2⟩

/-- C1, witness: `c1_segment_count` applied at frequency 4 with a single
well-formed raw segment (6 raw segments would be truncated to 4; the single
one is returned alone). -/
theorem c1_witness :
    ((1:ℕ) ≤ 4 ∧ (∀ r ∈ ([⟨some "A", some "B"⟩] : List RawSeg),
        r.name.isSome ∧ r.traits.isSome))
    ∧ ((∃ segs, processSegmentation "100만명" 4 "TestPhone" .fail 0 = .ok segs
          ∧ segs.length = numSegmentsOf 4)
      ∧ (∃ segs, processSegmentation "100만명" 4 "TestPhone"
            (.ok (some [⟨some "A", some "B"⟩])) 0 = .ok segs
          ∧ segs.length = min ([⟨some "A", some "B"⟩] : List RawSeg).length (numSegmentsOf 4))) :=
  ⟨⟨by decide, by decide⟩,
   c1_segment_count "100만명" "TestPhone" 4 0 [⟨some "A", some "B"⟩] (by decide) (by decide)⟩

/-- C2, counterexample: schema-mismatched output is NOT always treated like
a service failure — a parsed `"segments"` entry without a `"name"` key is
read outside the `try:` block, so the KeyError propagates to the caller
instead of triggering the fallback. -/
theorem c2_counterexample :
    errorOf (processSegmentation "100만명" 4 "TestPhone"
        (.ok (some [⟨none, none⟩])) 0) = some .keyError := by decide

/-- C2 (amended): failures of the generative call itself (exceptions,
timeouts, non-JSON or non-dict output — everything raised inside the
`try:`) are converted into the deterministic fallback: exactly `N`
synthetic segments keyed by ordinal, each with a non-empty name and trait
string, and no failure reaches the caller.  Schema-mismatched but parseable
output is treated differently: a JSON object without the `"segments"` key
yields an empty segment list (not the fallback), and an entry missing
`"name"`/`"traits"` raises a KeyError to the caller
(see `c2_counterexample`). -/
theorem c2_failure_fallback (tc product : String) (freq : ℕ) (now : ℤ)
    (hfreq : 1 ≤ freq) :
    (∃ segs, processSegmentation tc freq product .fail now = .ok segs
       ∧ segs.length = numSegmentsOf freq
       ∧ segs.map (·.segNo) = (List.range (numSegmentsOf freq)).map (· + 1)
       ∧ ∀ s ∈ segs, s.segName ≠ "" ∧ s.segTraits ≠ "")
    ∧ processSegmentation tc freq product (.ok none) now = .ok [] := by
  have hf : freq ≠ 0 := by omega
  have hN := numSegmentsOf_ne_zero hf
  constructor
  · refine ⟨_, processSegmentation_fail tc product freq hf now, by simp, ?_, ?_⟩
    · simp [fallbackRow]
    · intro s hs
      obtain ⟨i, _, rfl⟩ := List.mem_map.mp hs
      constructor
      · exact append_ne_empty_of_left _ (by decide)
      · exact append_ne_empty_of_right _ (by decide)
  · unfold processSegmentation generateAISegments rawSegmentsOf
    rw [if_neg hN]
    simp [buildRows]

/-- C2, witness: `c2_failure_fallback` applied at frequency 4 with an empty
product name (the fallback traits are non-empty even then). -/
theorem c2_witness :
    (1:ℕ) ≤ 4
    ∧ ((∃ segs, processSegmentation "100만명" 4 "" .fail 0 = .ok segs
         ∧ segs.length = numSegmentsOf 4
         ∧ segs.map (·.segNo) = (List.range (numSegmentsOf 4)).map (· + 1)
         ∧ ∀ s ∈ segs, s.segName ≠ "" ∧ s.segTraits ≠ "")
      ∧ processSegmentation "100만명" 4 "" (.ok none) 0 = .ok []) :=
  ⟨by decide, c2_failure_fallback "100만명" "" 4 0 (by decide)⟩

/-- C3, counterexample: volume conservation fails when the service
under-produces — with `total_count = 1,000,000` and `N = 4`, two raw
segments yield a volume sum of 500,000, not `(total_count // N) * N =
1,000,000`. -/
theorem c3_counterexample :
    ((processSegmentation "100만명" 4 "TestPhone"
        (.ok (some [⟨some "A", some "B"⟩, ⟨some "C", some "D"⟩])) 0).toOption.map
      (fun segs => (segs.map (·.volume)).sum)) = some 500000
    ∧ (500000 : ℤ) ≠ Int.fdiv (parseTargetCount "100만명") 4 * 4 := by
  constructor <;> decide

/-- C3 (amended): every returned segment is allocated exactly
`total_count // N` (floor division, remainder dropped, never distributed),
so the volume sum is `(total_count // N) * (number of returned segments)`.
This equals `(total_count // N) * N` on the fallback path (and whenever at
least `N` raw segments are returned), but on under-production the sum is
proportionally smaller because the list is not padded to `N`. -/
theorem c3_volume_conservation (tc product : String) (freq : ℕ) (now : ℤ)
    (raw : List RawSeg) (hfreq : 1 ≤ freq)
    (hwf : ∀ r ∈ raw, r.name.isSome ∧ r.traits.isSome) :
    (∃ segs, processSegmentation tc freq product .fail now = .ok segs
       ∧ (∀ s ∈ segs, s.volume = Int.fdiv (parseTargetCount tc) (numSegmentsOf freq))
       ∧ (segs.map (·.volume)).sum
           = Int.fdiv (parseTargetCount tc) (numSegmentsOf freq) * (numSegmentsOf freq : ℤ))
    ∧ (∃ segs, processSegmentation tc freq product (.ok (some raw)) now = .ok segs
       ∧ (∀ s ∈ segs, s.volume = Int.fdiv (parseTargetCount tc) (numSegmentsOf freq))
       ∧ (segs.map (·.volume)).sum
           = Int.fdiv (parseTargetCount tc) (numSegmentsOf freq)
             * (min raw.length (numSegmentsOf freq) : ℤ)) := by
  have hf : freq ≠ 0 := by omega
  constructor
  · refine ⟨_, processSegmentation_fail tc product freq hf now, ?_, ?_⟩
    · intro s hs
      obtain ⟨i, _, rfl⟩ := List.mem_map.mp hs
      rfl
    · rw [sum_volumes_const _ _ (fun s hs => by
        obtain ⟨i, _, rfl⟩ := List.mem_map.mp hs; rfl)]
      rw [List.length_map, List.length_range]
      rfl
  · obtain ⟨segs, h1, h2, h3⟩ := processSegmentation_ok_raw tc product freq hf raw hwf now
    refine ⟨segs, h1, h3, ?_⟩
    rw [sum_volumes_const _ _ h3, h2, Nat.cast_min]

/-- C3, witness: `c3_volume_conservation` applied at frequency 4 with two
well-formed raw segments. -/
theorem c3_witness :
    ((1:ℕ) ≤ 4 ∧ (∀ r ∈ ([⟨some "A", some "B"⟩, ⟨some "C", some "D"⟩] : List RawSeg),
        r.name.isSome ∧ r.traits.isSome))
    ∧ ((∃ segs, processSegmentation "100만명" 4 "TestPhone" .fail 0 = .ok segs
         ∧ (∀ s ∈ segs, s.volume = Int.fdiv (parseTargetCount "100만명") (numSegmentsOf 4))
         ∧ (segs.map (·.volume)).sum
             = Int.fdiv (parseTargetCount "100만명") (numSegmentsOf 4) * (numSegmentsOf 4 : ℤ))
      ∧ (∃ segs, processSegmentation "100만명" 4 "TestPhone"
            (.ok (some [⟨some "A", some "B"⟩, ⟨some "C", some "D"⟩])) 0 = .ok segs
         ∧ (∀ s ∈ segs, s.volume = Int.fdiv (parseTargetCount "100만명") (numSegmentsOf 4))
         ∧ (segs.map (·.volume)).sum
             = Int.fdiv (parseTargetCount "100만명") (numSegmentsOf 4)
               * (min ([⟨some "A", some "B"⟩, ⟨some "C", some "D"⟩] : List RawSeg).length
                   (numSegmentsOf 4) : ℤ))) :=
  ⟨⟨by decide, by decide⟩,
   c3_volume_conservation "100만명" "TestPhone" 4 0
     [⟨some "A", some "B"⟩, ⟨some "C", some "D"⟩] (by decide) (by decide)⟩

/-- C4 (confirmed): for the request {product: "TestPhone", metric:
"conversion rate", target_count: "100만명", frequency: 4}, whenever the
generative service either fails (fallback) or returns well-formed output of
the contracted size 4, `process_segmentation` yields exactly 4 segments,
each with volume 250,000 = 1,000,000 // 4, with send dates `now + 7`,
`now + 10`, `now + 13`, `now + 16` days — starting 7 days out, spaced 3
days apart, non-decreasing in ordinal order.  (The metric only enters the
retrieval query, not the segmentation arithmetic.) -/
theorem c4_scenario (now : ℤ) (gen : GenResult)
    (hgen : gen = GenResult.fail
      ∨ ∃ raw, gen = GenResult.ok (some raw) ∧ raw.length = 4
          ∧ ∀ r ∈ raw, r.name.isSome ∧ r.traits.isSome) :
    ∃ segs, processSegmentation "100만명" 4 "TestPhone" gen now = .ok segs
      ∧ segs.length = 4
      ∧ (∀ s ∈ segs, s.volume = 250000)
      ∧ segs.map (·.sendDate) = [now + 7, now + 10, now + 13, now + 16] := by
  have hparse : parseTargetCount "100만명" = 1000000 := by decide
  have hdiv : Int.fdiv 1000000 ((4:ℕ):ℤ) = 250000 := by decide
  have hdiv' : Int.fdiv 1000000 (4:ℤ) = 250000 := by decide
  have h4 : numSegmentsOf 4 = 4 := by decide
  have hrange : List.range 4 = [0, 1, 2, 3] := by decide
  rcases hgen with rfl | ⟨raw, rfl, hlen, hwf⟩
  · rw [processSegmentation_fail _ _ 4 (by omega) now, hparse, h4, hdiv, hrange]
    refine ⟨_, rfl, by simp, ?_, ?_⟩
    · intro s hs
      obtain ⟨i, _, rfl⟩ := List.mem_map.mp hs
      rfl
    · simp only [List.map_cons, List.map_nil, fallbackRow]
      norm_num
      omega
  · rcases raw with _ | ⟨a, _ | ⟨b, _ | ⟨c, _ | ⟨d, _ | e⟩⟩⟩⟩ <;> simp at hlen
    obtain ⟨na, hna⟩ := Option.isSome_iff_exists.mp (hwf a (by simp)).1
    obtain ⟨ta, hta⟩ := Option.isSome_iff_exists.mp (hwf a (by simp)).2
    obtain ⟨nb, hnb⟩ := Option.isSome_iff_exists.mp (hwf b (by simp)).1
    obtain ⟨tb, htb⟩ := Option.isSome_iff_exists.mp (hwf b (by simp)).2
    obtain ⟨nc, hnc⟩ := Option.isSome_iff_exists.mp (hwf c (by simp)).1
    obtain ⟨tcc, htc⟩ := Option.isSome_iff_exists.mp (hwf c (by simp)).2
    obtain ⟨nd, hnd⟩ := Option.isSome_iff_exists.mp (hwf d (by simp)).1
    obtain ⟨td, htd⟩ := Option.isSome_iff_exists.mp (hwf d (by simp)).2
    have hcomp : processSegmentation "100만명" 4 "TestPhone" (.ok (some [a, b, c, d])) now
        = .ok [⟨1, na, ta, 250000, now + 7⟩, ⟨2, nb, tb, 250000, now + 10⟩,
               ⟨3, nc, tcc, 250000, now + 13⟩, ⟨4, nd, td, 250000, now + 16⟩] := by
      unfold processSegmentation generateAISegments rawSegmentsOf
      rw [hparse]
      simp only [h4, numSegmentsOf]
      norm_num [buildRows, mkRow, hna, hta, hnb, htb, hnc, htc, hnd, htd, List.take, hdiv, hdiv']
      omega
    refine ⟨_, hcomp, by simp, ?_, by simp⟩
    intro s hs
    simp at hs
    rcases hs with rfl | rfl | rfl | rfl <;> rfl

/-- C4, witness: `c4_scenario` applied to the fallback outcome at a
concrete date. -/
theorem c4_witness :
    ∃ segs, processSegmentation "100만명" 4 "TestPhone" GenResult.fail 0 = .ok segs
      ∧ segs.length = 4
      ∧ (∀ s ∈ segs, s.volume = 250000)
      ∧ segs.map (·.sendDate) = [0 + 7, 0 + 10, 0 + 13, 0 + 16] :=
  c4_scenario 0 GenResult.fail (Or.inl rfl)

/-- C5, counterexample: for a retrieval with k = 1 (≤ the catalog size),
a nonnegative distance of 20000 rounds to similarity 0, which lies outside
the claimed half-open interval (0, 1]. -/
theorem c5_counterexample :
    (searchAndReason [(someDoc, 20000)]).map (·.similarity) = [0] := by
  simp [searchAndReason, List.insertionSort, List.orderedInsert, mkRanked, similarity_at_20000]

/-- C5 (amended): the catalog has exactly 75 feature instances; for every
query result of the index (one ranked row per returned pair, so exactly k
rows when the index returns k pairs) with nonnegative distances, every
similarity lies in the closed interval [0, 1] (similarity 0 is reachable
for large distances, so the open lower bound of the claim fails), the
result is sorted by similarity in non-increasing order, and ties preserve
the original retrieval order (stability, stated as: filtering the result
at any similarity value gives exactly the retrieval-ordered rows of that
value). -/
theorem c5_search_and_reason (dws : List (FeatureDoc × ℚ))
    (hscores : ∀ p ∈ dws, 0 ≤ p.2) :
    (∀ draw : ℕ → SignalDraw, (buildCatalog draw).length = 75)
    ∧ (searchAndReason dws).length = dws.length
    ∧ (∀ r ∈ searchAndReason dws, 0 ≤ r.similarity ∧ r.similarity ≤ 1)
    ∧ List.Sorted simGE (searchAndReason dws)
    ∧ (∀ q : ℚ, (searchAndReason dws).filter (fun r => decide (r.similarity = q))
        = (dws.map mkRanked).filter (fun r => decide (r.similarity = q))) := by
  refine ⟨fun _ => rfl, ?_, ?_, ?_, ?_⟩
  · rw [searchAndReason, List.length_insertionSort, List.length_map]
  · intro r hr
    obtain ⟨p, hp, hpr⟩ := List.mem_map.mp ((List.mem_insertionSort simGE).mp hr)
    have h0 := hscores p hp
    rw [← hpr]
    exact ⟨similarityOfDistance_nonneg h0, similarityOfDistance_le_one h0⟩
  · exact List.sorted_insertionSort simGE _
  · intro q
    exact filter_insertionSort q _

/-- C5, witness: `c5_search_and_reason` applied to a two-element query
result with distances 0 and 1. -/
theorem c5_witness :
    (∀ p ∈ [(someDoc, (0:ℚ)), (someDoc, 1)], 0 ≤ p.2)
    ∧ ((∀ draw : ℕ → SignalDraw, (buildCatalog draw).length = 75)
      ∧ (searchAndReason [(someDoc, (0:ℚ)), (someDoc, 1)]).length
          = ([(someDoc, (0:ℚ)), (someDoc, 1)] : List (FeatureDoc × ℚ)).length
      ∧ (∀ r ∈ searchAndReason [(someDoc, (0:ℚ)), (someDoc, 1)],
          0 ≤ r.similarity ∧ r.similarity ≤ 1)
      ∧ List.Sorted simGE (searchAndReason [(someDoc, (0:ℚ)), (someDoc, 1)])
      ∧ (∀ q : ℚ, (searchAndReason [(someDoc, (0:ℚ)), (someDoc, 1)]).filter
            (fun r => decide (r.similarity = q))
          = (([(someDoc, (0:ℚ)), (someDoc, 1)] : List (FeatureDoc × ℚ)).map mkRanked).filter
            (fun r => decide (r.similarity = q)))) :=
  ⟨by norm_num, c5_search_and_reason [(someDoc, 0), (someDoc, 1)] (by norm_num)⟩

/-- C6, counterexample: the rounded similarity reaches 0 — at distance
20000 the value `round(1/(1+20000), 4)` is exactly 0, contradicting
"never reaches 0"; rounding also destroys strict monotonicity. -/
theorem c6_counterexample : similarityOfDistance 20000 = 0 :=
  similarity_at_20000

/-- C6 (amended): the unrounded map `1/(1+d)` sends distance 0 to 1, is
strictly decreasing, and stays in (0, 1] for nonnegative distances; the
similarity the source actually stores is this value rounded to 4 decimal
places, which sends 0 to 1.0, lies in the closed interval [0, 1] (0 is
reachable, see `c6_counterexample`), and is non-increasing (not strictly
decreasing: nearby distances round to the same value) in the distance. -/
theorem c6_similarity_normalization :
    unroundedSimilarity 0 = 1
    ∧ (∀ d : ℚ, 0 ≤ d → 0 < unroundedSimilarity d ∧ unroundedSimilarity d ≤ 1)
    ∧ (∀ d e : ℚ, 0 ≤ d → d < e → unroundedSimilarity e < unroundedSimilarity d)
    ∧ similarityOfDistance 0 = 1
    ∧ (∀ d : ℚ, 0 ≤ d → 0 ≤ similarityOfDistance d ∧ similarityOfDistance d ≤ 1)
    ∧ (∀ d e : ℚ, 0 ≤ d → d ≤ e → similarityOfDistance e ≤ similarityOfDistance d) :=
  ⟨unroundedSimilarity_zero,
   fun _ hd => ⟨unroundedSimilarity_pos hd, unroundedSimilarity_le_one hd⟩,
   fun _ _ hd h => unroundedSimilarity_strictAnti hd h,
   similarityOfDistance_zero,
   fun _ hd => ⟨similarityOfDistance_nonneg hd, similarityOfDistance_le_one hd⟩,
   fun _ _ hd h => similarityOfDistance_anti hd h⟩

/-- C6, witness: the quantified parts of `c6_similarity_normalization`
applied at distances 1 and 2. -/
theorem c6_witness :
    (0 < unroundedSimilarity 1 ∧ unroundedSimilarity 1 ≤ 1)
    ∧ unroundedSimilarity 2 < unroundedSimilarity 1
    ∧ (0 ≤ similarityOfDistance 1 ∧ similarityOfDistance 1 ≤ 1)
    ∧ similarityOfDistance 2 ≤ similarityOfDistance 1 :=
  ⟨c6_similarity_normalization.2.1 1 (by norm_num),
   c6_similarity_normalization.2.2.1 1 2 (by norm_num) (by norm_num),
   c6_similarity_normalization.2.2.2.2.1 1 (by norm_num),
   c6_similarity_normalization.2.2.2.2.2 1 2 (by norm_num) (by norm_num)⟩

end TargetingAI
